import Mathlib

/-!
# Verification of the long-text extraction and RunPod notebooks

A shallow embedding of the code cells of the two documentation notebooks
(`google_drive.ipynb`: the RunPod LLM usage notebook and the
"How to handle long text when doing extraction" guide).  Pure Python
snippets become Lean functions; list indexing that can raise becomes
`Except`; behaviour of external library calls that the notebooks merely
configure (the `Runnable.batch` thread pool, the RunPod poll loop) is
modelled from the specification where noted.

The file is organised as: definitions (the embedding), helper lemmas,
then the claim theorems.
-/

set_option autoImplicit false

namespace LongTextExtraction

universe u v

variable {α : Type u} {β : Type v}

/-- The LangChain `Document` wrapper: text content plus metadata
(a string-keyed dictionary, modelled as an association list). -/
structure Document where
  page_content : String
  metadata : List (String × String)
deriving Repr, DecidableEq

/-- The Pydantic `KeyDevelopment` record of the extraction schema:
exactly the three required fields `year : int`, `description : str`,
`evidence : str` (notebook cell "Define the schema"). -/
structure KeyDevelopment where
  year : Int
  description : String
  evidence : String
deriving Repr, DecidableEq

/-- The Pydantic `ExtractionData` record: a single field
`key_developments : List[KeyDevelopment]`. -/
structure ExtractionData where
  key_developments : List KeyDevelopment
deriving Repr, DecidableEq

/-- The single-key input dictionary `{"text": text}` handed to the
extractor chain (whose prompt has the one variable `text`). -/
structure ExtractorInput where
  text : String
deriving Repr, DecidableEq

/-- Python list indexing `l[i]`: returns the element or raises
`IndexError` when the index is out of range. -/
def pyGetItem (l : List α) (i : Nat) : Except String α :=
  match l.get? i with
  | some a => Except.ok a
  | none => Except.error "IndexError: list index out of range"

/-- `loader.load()[0]` in the set-up cell: the first document of the
loader's result, raising `IndexError` when the loader returned nothing. -/
def load_first (loaded : List Document) : Except String Document :=
  pyGetItem loaded 0

/-- The substitution `re.sub("\n\n+", "\n", s)` of the clean-up cell on
the character list of `s`: Python's `re.sub` scans left to right and the
greedy pattern matches each maximal run of two or more newlines, which is
replaced by a single newline; single newlines and other characters are
copied unchanged. -/
def collapseNewlines : List Char → List Char
  | [] => []
  | [c] => [c]
  | c :: d :: rest =>
    if c = '\n' ∧ d = '\n' then collapseNewlines (d :: rest)
    else c :: collapseNewlines (d :: rest)

/-- The clean-up step
`document.page_content = re.sub("\n\n+", "\n", document.page_content)`. -/
def clean_page_content (s : String) : String :=
  String.mk (collapseNewlines s.data)

/-- `true` iff the character list nowhere contains two consecutive
newline characters. -/
def noDoubleNewline : List Char → Bool
  | [] => true
  | [_] => true
  | c :: d :: rest => !(c == '\n' && d == '\n') && noDoubleNewline (d :: rest)

/-- The `TokenTextSplitter` configuration of the brute-force approach:
`chunk_size=2000`, `chunk_overlap=20` (the splitting algorithm itself
belongs to the external `langchain_text_splitters` package, so
`split_text` is kept abstract as a parameter below). -/
structure TokenTextSplitterConfig where
  chunk_size : Nat
  chunk_overlap : Nat
deriving Repr, DecidableEq

/-- `text_splitter = TokenTextSplitter(chunk_size=2000, chunk_overlap=20)`. -/
def text_splitter : TokenTextSplitterConfig :=
  { chunk_size := 2000, chunk_overlap := 20 }

/-- `first_few = texts[:3]` — the notebook deliberately limits the
extraction to the first 3 chunks "so the code can be re-run quickly". -/
def first_few (texts : List String) : List String :=
  texts.take 3

/-- `[{"text": text} for text in first_few]` — the list of inputs handed
to `extractor.batch`. -/
def batch_inputs (texts : List String) : List ExtractorInput :=
  (first_few texts).map (fun t => { text := t })

/-- Modelled from the spec: the external orchestration library's
`Runnable.batch` ("a bounded thread-pool style batch with max concurrency
call offered by the external orchestration library") is not part of this
repository's sources.  Its thread pool admits at most `max_concurrency`
tasks at once; we model the schedule as successive waves, each wave a
group of at most `max_concurrency` consecutive inputs running
concurrently, waves executed one after another in input order. -/
def batchWaves : Nat → List α → List (List α)
  | _, [] => []
  | c, x :: xs => (x :: xs.take (c - 1)) :: batchWaves c (xs.drop (c - 1))
termination_by _ l => l.length
decreasing_by
  simp only [List.length_drop, List.length_cons]
  omega

/-- Modelled from the spec: running `Runnable.batch` — every wave is
mapped with the runnable and the per-wave results are concatenated back
in input order. -/
def runnableBatch (f : α → β) (max_concurrency : Nat) (inputs : List α) : List β :=
  ((batchWaves max_concurrency inputs).map (fun wave => wave.map f)).flatten

/-- The configuration dictionary `{"max_concurrency": 5}` passed to
`extractor.batch`. -/
def max_concurrency_config : Nat := 5

/-- The `extractions = extractor.batch([...], {"max_concurrency": 5})`
cell, with the structured-output extraction chain kept abstract as
`extract`. -/
def extractions (extract : ExtractorInput → ExtractionData)
    (texts : List String) : List ExtractionData :=
  runnableBatch extract max_concurrency_config (batch_inputs texts)

/-- The merge step of the brute-force pipeline
(`key_developments = []` followed by
`for extraction in extractions: key_developments.extend(extraction.key_developments)`). -/
def merge_key_developments (extractions : List ExtractionData) : List KeyDevelopment :=
  extractions.foldl (fun acc extraction => acc ++ extraction.key_developments) []

/-- `vectorstore.as_retriever(search_kwargs={"k": k})`: the similarity
search of the external FAISS index is kept abstract as `sim`, which
returns the chunks ranked by similarity; the retriever truncates that
ranking to its `k` best hits. -/
def as_retriever (sim : String → List Document) (k : Nat) : String → List Document :=
  fun query => (sim query).take k

/-- `retriever = vectorstore.as_retriever(search_kwargs={"k": 1})` —
"Only extract from first document". -/
def retriever (sim : String → List Document) : String → List Document :=
  as_retriever sim 1

/-- The `lambda docs: docs[0].page_content` inside `rag_extractor`
("fetch content of top doc"); `docs[0]` raises `IndexError` on an empty
list. -/
def top_doc_content (docs : List Document) : Except String String :=
  (pyGetItem docs 0).map Document.page_content

/-- The input dictionary built by the first stage of
`rag_extractor = {"text": retriever | (lambda docs: docs[0].page_content)} | extractor`. -/
def rag_extractor_input (sim : String → List Document) (query : String) :
    Except String ExtractorInput :=
  (top_doc_content (retriever sim query)).map (fun t => { text := t })

/-- The full `rag_extractor` chain: build the `{"text": ...}` input from
the retrieval step, then run the extractor on it. -/
def rag_extractor (sim : String → List Document)
    (extract : ExtractorInput → ExtractionData) (query : String) :
    Except String ExtractionData :=
  (rag_extractor_input sim query).map extract

end LongTextExtraction

namespace RunPodNotebook

/-- The result of running one notebook cell: the lines it printed and
the exception it let escape, if any (`none` when nothing propagates). -/
structure CellRun where
  printed : List String
  raised : Option String
deriving Repr, DecidableEq

/-- The sync-invoke cell: `try: response = llm.invoke(prompt); print(...)
except Exception as e: print(f"Error invoking LLM: {e}. ...")`.  The
outcome of the underlying remote call is the `result` argument. -/
def sync_invoke_cell (result : Except String String) : CellRun :=
  match result with
  | Except.ok response =>
      { printed := ["--- Sync Invoke Response ---", response], raised := none }
  | Except.error e =>
      { printed := ["Error invoking LLM: " ++ e ++
          ". Ensure endpoint ID/API key are correct and endpoint is active/compatible."],
        raised := none }

/-- The sync-stream cell: prints a header, then either every streamed
chunk followed by a final newline, or the diagnostic of the caught
exception. -/
def sync_stream_cell (result : Except String (List String)) : CellRun :=
  match result with
  | Except.ok chunks =>
      { printed := "\n--- Sync Stream Response ---" :: (chunks ++ [""]), raised := none }
  | Except.error e =>
      { printed := ["\n--- Sync Stream Response ---",
          "\nError streaming LLM: " ++ e ++
          ". Ensure endpoint handler supports streaming output format."],
        raised := none }

/-- The async-invoke cell: `try: async_response = await llm.ainvoke(prompt) ...
except Exception as e: print(f"Error invoking LLM asynchronously: {e}.")`. -/
def async_invoke_cell (result : Except String String) : CellRun :=
  match result with
  | Except.ok response =>
      { printed := ["--- Async Invoke Response ---", response], raised := none }
  | Except.error e =>
      { printed := ["Error invoking LLM asynchronously: " ++ e ++ "."], raised := none }

/-- The async-stream cell: header, then streamed chunks or the caught
exception's diagnostic. -/
def async_stream_cell (result : Except String (List String)) : CellRun :=
  match result with
  | Except.ok chunks =>
      { printed := "\n--- Async Stream Response ---" :: (chunks ++ [""]), raised := none }
  | Except.error e =>
      { printed := ["\n--- Async Stream Response ---",
          "\nError streaming LLM asynchronously: " ++ e ++
          ". Ensure endpoint handler supports streaming output format."],
        raised := none }

/-- Modelled from the spec: the `RunPod` client class lives in the
external `langchain-runpod` package, not in this repository's sources;
the notebook only instantiates it.  Per the spec it is "a polling-based
simulated streaming client ... a retry/poll loop" whose behaviour is
configured through the keyword parameters `poll_interval` (seconds
between polls, a number) and `max_polling_attempts` (the poll budget). -/
structure RunPodConfig where
  poll_interval : Rat
  max_polling_attempts : Nat
deriving DecidableEq

/-- One response of the remote `/stream` endpoint: either the job is
finished (with its final chunks) or still in progress (with the chunks
available so far). -/
inductive PollResponse where
  | completed (chunks : List String)
  | inProgress (chunks : List String)
deriving Repr, DecidableEq

/-- Modelled from the spec: the poll loop of the simulated stream.
`respond n` is the remote endpoint's answer to the `n`-th poll for the
given prompt; the loop stops as soon as the job reports completion or
the remaining budget `fuel` runs out. -/
def pollLoop (respond : Nat → PollResponse) : Nat → Nat → List String
  | _, 0 => []
  | attempt, fuel + 1 =>
    match respond attempt with
    | PollResponse.completed chunks => chunks
    | PollResponse.inProgress chunks => chunks ++ pollLoop respond (attempt + 1) fuel

/-- Modelled from the spec: the number of polls the loop issues. -/
def pollCount (respond : Nat → PollResponse) : Nat → Nat → Nat
  | _, 0 => 0
  | attempt, fuel + 1 =>
    match respond attempt with
    | PollResponse.completed _ => 1
    | PollResponse.inProgress _ => 1 + pollCount respond (attempt + 1) fuel

/-- Modelled from the spec: `llm.stream(prompt)` — poll the `/stream`
endpoint starting at attempt 0 with budget `max_polling_attempts`. -/
def runpodStream (cfg : RunPodConfig) (respond : Nat → PollResponse) : List String :=
  pollLoop respond 0 cfg.max_polling_attempts

/-- Modelled from the spec: the number of polls `llm.stream(prompt)`
issues. -/
def runpodStreamPolls (cfg : RunPodConfig) (respond : Nat → PollResponse) : Nat :=
  pollCount respond 0 cfg.max_polling_attempts

end RunPodNotebook

/-! ## Helper lemmas -/

namespace LongTextExtraction

universe u v

variable {α : Type u} {β : Type v}

theorem merge_foldl_acc (extractions : List ExtractionData) :
    ∀ acc : List KeyDevelopment,
      extractions.foldl (fun a e => a ++ e.key_developments) acc =
        acc ++ (extractions.map ExtractionData.key_developments).flatten := by
  induction extractions with
  | nil => intro acc; simp
  | cons e es ih =>
    intro acc
    simp only [List.foldl_cons, List.map_cons, List.flatten, ih, List.append_assoc]

theorem merge_eq_join (extractions : List ExtractionData) :
    merge_key_developments extractions =
      (extractions.map ExtractionData.key_developments).flatten := by
  simpa [merge_key_developments] using merge_foldl_acc extractions []

theorem batchWaves_flatten (c : Nat) (l : List α) :
    (batchWaves c l).flatten = l := by
  induction c, l using batchWaves.induct with
  | case1 c => simp [batchWaves]
  | case2 c x xs ih =>
    simp only [batchWaves, List.flatten_cons, ih, List.cons_append]
    rw [List.take_append_drop]

theorem batchWaves_length_le (c : Nat) (l : List α) :
    ∀ wave ∈ batchWaves c l, wave.length ≤ max c 1 := by
  induction c, l using batchWaves.induct with
  | case1 c => intro wave h; simp [batchWaves] at h
  | case2 c x xs ih =>
    intro wave h
    simp only [batchWaves, List.mem_cons] at h
    rcases h with h | h
    · subst h
      simp only [List.length_cons, List.length_take]
      omega
    · exact ih wave h

theorem runnableBatch_eq_map (f : α → β) (c : Nat) (inputs : List α) :
    runnableBatch f c inputs = inputs.map f := by
  unfold runnableBatch
  rw [← List.map_flatten, batchWaves_flatten]

theorem extractions_eq_map (extract : ExtractorInput → ExtractionData)
    (texts : List String) :
    extractions extract texts =
      (texts.take 3).map (fun t => extract { text := t }) := by
  simp [extractions, runnableBatch_eq_map, batch_inputs, first_few, Function.comp_def]

theorem rag_extractor_input_head (sim : String → List Document) (q : String) :
    rag_extractor_input sim q =
      match (sim q).head? with
      | some d => Except.ok { text := d.page_content }
      | none => Except.error "IndexError: list index out of range" := by
  cases h : sim q with
  | nil =>
    simp [rag_extractor_input, top_doc_content, retriever, as_retriever, h,
      pyGetItem, Except.map]
  | cons d rest =>
    simp [rag_extractor_input, top_doc_content, retriever, as_retriever, h,
      pyGetItem, Except.map]

theorem collapseNewlines_head (c : Char) (rest : List Char) :
    (collapseNewlines (c :: rest)).head? = some c := by
  induction rest generalizing c with
  | nil => simp [collapseNewlines]
  | cons d r ih =>
    simp only [collapseNewlines]
    split
    · rename_i h
      rw [ih d, h.1, h.2]
    · simp

theorem collapseNewlines_cons (d : Char) (rest : List Char) :
    ∃ t, collapseNewlines (d :: rest) = d :: t := by
  cases h : collapseNewlines (d :: rest) with
  | nil =>
    have hh := collapseNewlines_head d rest
    rw [h] at hh
    simp at hh
  | cons e t =>
    have hh := collapseNewlines_head d rest
    rw [h] at hh
    simp only [List.head?_cons, Option.some.injEq] at hh
    exact ⟨t, by rw [hh]⟩

theorem noDoubleNewline_collapseNewlines (l : List Char) :
    noDoubleNewline (collapseNewlines l) = true := by
  induction l using collapseNewlines.induct with
  | case1 => simp [collapseNewlines, noDoubleNewline]
  | case2 c => simp [collapseNewlines, noDoubleNewline]
  | case3 c d rest h ih =>
    simp only [collapseNewlines, if_pos h]
    exact ih
  | case4 c d rest h ih =>
    simp only [collapseNewlines, if_neg h]
    obtain ⟨t, ht⟩ := collapseNewlines_cons d rest
    rw [ht]
    rw [ht] at ih
    simp only [noDoubleNewline, Bool.and_eq_true, Bool.not_eq_true']
    refine ⟨?_, ih⟩
    by_cases hc : c = '\n'
    · by_cases hd : d = '\n'
      · exact absurd ⟨hc, hd⟩ h
      · simp [hd]
    · simp [hc]

theorem collapseNewlines_fixpoint (l : List Char)
    (h : noDoubleNewline l = true) : collapseNewlines l = l := by
  induction l using collapseNewlines.induct with
  | case1 => rfl
  | case2 c => rfl
  | case3 c d rest hcd ih =>
    exfalso
    simp only [noDoubleNewline, Bool.and_eq_true, Bool.not_eq_true',
      Bool.and_eq_false_iff, beq_eq_false_iff_ne] at h
    rcases h.1 with hne | hne
    · exact hne hcd.1
    · exact hne hcd.2
  | case4 c d rest hcd ih =>
    simp only [noDoubleNewline, Bool.and_eq_true] at h
    simp only [collapseNewlines, if_neg hcd]
    rw [ih h.2]

theorem collapseNewlines_idem (l : List Char) :
    collapseNewlines (collapseNewlines l) = collapseNewlines l :=
  collapseNewlines_fixpoint _ (noDoubleNewline_collapseNewlines l)

end LongTextExtraction

namespace RunPodNotebook

theorem pollCount_le (respond : Nat → PollResponse) :
    ∀ (fuel attempt : Nat), pollCount respond attempt fuel ≤ fuel := by
  intro fuel
  induction fuel with
  | zero => intro attempt; simp [pollCount]
  | succ f ih =>
    intro attempt
    cases h : respond attempt with
    | completed chunks => simp [pollCount, h]
    | inProgress chunks =>
      have hr := ih (attempt + 1)
      simp only [pollCount, h]
      omega

end RunPodNotebook

/-! ## Claim theorems -/

namespace Claims

open LongTextExtraction RunPodNotebook

/-- C1, counterexample: the extractor is NOT invoked on every element of
the list returned by the splitter — the notebook restricts the batch to
`first_few = texts[:3]`, so on a four-chunk split the fourth chunk's
input is absent from the batch and only three extractions are produced. -/
theorem claim_C1_counterexample :
    "chunk d" ∈ ["chunk a", "chunk b", "chunk c", "chunk d"] ∧
    ({ text := "chunk d" } : ExtractorInput) ∉
      batch_inputs ["chunk a", "chunk b", "chunk c", "chunk d"] ∧
    (extractions (fun _ => ExtractionData.mk [])
        ["chunk a", "chunk b", "chunk c", "chunk d"]).length = 3 := by
  refine ⟨by decide, by decide, ?_⟩
  rw [extractions_eq_map]
  decide

/-- C1, amended: in the brute-force chunk-then-merge pipeline the long
document is split into overlapping token windows and a structured-output
extraction is run for every element of `first_few = texts[:3]` — the
notebook deliberately limits the batch to the first three chunks of the
splitter's output ("so the code can be re-run quickly"); each of those
chunks is extracted, in order. -/
theorem claim_C1_amended (extract : ExtractorInput → ExtractionData)
    (texts : List String) :
    extractions extract texts =
      (first_few texts).map (fun t => extract { text := t }) ∧
    ∀ t ∈ first_few texts, extract { text := t } ∈ extractions extract texts := by
  constructor
  · simpa [first_few] using extractions_eq_map extract texts
  · intro t ht
    rw [extractions_eq_map]
    exact List.mem_map_of_mem _ (by simpa [first_few] using ht)

/-- Witness for the amended C1 at a concrete chunk list and extractor. -/
theorem claim_C1_amended_witness :
    ExtractionData.mk [] ∈
      extractions (fun _ => ExtractionData.mk []) ["chunk a"] :=
  (claim_C1_amended (fun _ => ExtractionData.mk []) ["chunk a"]).2
    "chunk a" (by decide)

/-- C2: the merge step concatenates results — the merged
`key_developments` list is exactly the in-order flattening of the
per-chunk extraction lists (so every element of every extraction appears
exactly once, none added, dropped or reordered, and elements of earlier
extractions precede those of later ones), and its length is the sum of
the per-extraction lengths. -/
theorem claim_C2_merge_is_concat (extractions : List ExtractionData) :
    merge_key_developments extractions =
      (extractions.map ExtractionData.key_developments).flatten ∧
    (merge_key_developments extractions).length =
      ((extractions.map (fun e => e.key_developments.length)).sum) := by
  refine ⟨merge_eq_join extractions, ?_⟩
  rw [merge_eq_join]
  simp [List.length_flatten, Function.comp_def]

/-- C3: the retrieval-augmented variant restricts the extraction input to
a single nearest-neighbour lookup — with the retriever configured with
`k = 1`, whenever the similarity search ranks `d` first, the retriever
returns exactly `[d]` and the `text` handed to the extractor chain is
exactly `d.page_content`. -/
theorem claim_C3_rag_single_top (sim : String → List Document) (q : String)
    (d : Document) (rest : List Document) (h : sim q = d :: rest) :
    retriever sim q = [d] ∧
    rag_extractor_input sim q = Except.ok { text := d.page_content } := by
  constructor
  · simp [retriever, as_retriever, h]
  · rw [rag_extractor_input_head, h]
    rfl

/-- Witness for C3 at a concrete similarity ranking. -/
theorem claim_C3_witness :
    retriever (fun _ => [Document.mk "top chunk" []]) "query" =
      [Document.mk "top chunk" []] ∧
    rag_extractor_input (fun _ => [Document.mk "top chunk" []]) "query" =
      Except.ok { text := "top chunk" } :=
  claim_C3_rag_single_top (fun _ => [Document.mk "top chunk" []]) "query"
    (Document.mk "top chunk" []) [] rfl

/-- C4: error handling is catch-and-print — for each of the four
invocation cells of the RunPod notebook (sync invoke, sync stream, async
invoke, async stream), when the underlying call raises an exception `e`
the cell lets nothing propagate (`raised = none`) and prints a diagnostic
line containing `e`. -/
theorem claim_C4_catch_and_print (e : String) :
    ((sync_invoke_cell (Except.error e)).raised = none ∧
      ∃ p s, (sync_invoke_cell (Except.error e)).printed = [p ++ e ++ s]) ∧
    ((sync_stream_cell (Except.error e)).raised = none ∧
      ∃ p s, (sync_stream_cell (Except.error e)).printed =
        ["\n--- Sync Stream Response ---", p ++ e ++ s]) ∧
    ((async_invoke_cell (Except.error e)).raised = none ∧
      ∃ p s, (async_invoke_cell (Except.error e)).printed = [p ++ e ++ s]) ∧
    ((async_stream_cell (Except.error e)).raised = none ∧
      ∃ p s, (async_stream_cell (Except.error e)).printed =
        ["\n--- Async Stream Response ---", p ++ e ++ s]) :=
  ⟨⟨rfl, "Error invoking LLM: ",
      ". Ensure endpoint ID/API key are correct and endpoint is active/compatible.", rfl⟩,
    ⟨rfl, "\nError streaming LLM: ",
      ". Ensure endpoint handler supports streaming output format.", rfl⟩,
    ⟨rfl, "Error invoking LLM asynchronously: ", ".", rfl⟩,
    ⟨rfl, "\nError streaming LLM asynchronously: ",
      ". Ensure endpoint handler supports streaming output format.", rfl⟩⟩

/-- C5: the extraction schema is exactly a list of three-field records —
a `KeyDevelopment` is determined by and determines precisely the triple
(`year`, `description`, `evidence`) (the projection to the triple is a
bijection, so there is no further field), and an `ExtractionData` is
exactly its `key_developments` list. -/
theorem claim_C5_schema_shape :
    Function.Bijective
      (fun kd : KeyDevelopment => (kd.year, kd.description, kd.evidence)) ∧
    Function.Bijective (fun ed : ExtractionData => ed.key_developments) := by
  constructor
  · constructor
    · intro a b hab
      cases a; cases b
      simpa using hab
    · rintro ⟨y, d, ev⟩
      exact ⟨⟨y, d, ev⟩, rfl⟩
  · constructor
    · intro a b hab
      cases a; cases b
      simpa using hab
    · intro l
      exact ⟨⟨l⟩, rfl⟩

/-- C6: the per-chunk extraction batch is invoked with the explicit
concurrency limit `max_concurrency = 5`, and in the modelled thread-pool
schedule every wave of concurrently running extractions has at most five
members. -/
theorem claim_C6_bounded_concurrency (texts : List String)
    (wave : List ExtractorInput)
    (h : wave ∈ batchWaves max_concurrency_config (batch_inputs texts)) :
    max_concurrency_config = 5 ∧ wave.length ≤ 5 := by
  refine ⟨rfl, ?_⟩
  have hw := batchWaves_length_le max_concurrency_config (batch_inputs texts) wave h
  simpa [max_concurrency_config] using hw

/-- Witness for C6 at a concrete chunk list and wave. -/
theorem claim_C6_witness :
    max_concurrency_config = 5 ∧
    ([({ text := "chunk a" } : ExtractorInput)]).length ≤ 5 :=
  claim_C6_bounded_concurrency ["chunk a"] [{ text := "chunk a" }]
    (by simp [batchWaves, batch_inputs, first_few])

/-- C7: the RunPod streaming client is a polling-based simulated stream
with a bounded poll loop — the client's polling configuration is exactly
the pair (`poll_interval`, `max_polling_attempts`), and for every
configuration and every sequence of remote responses (i.e., for every
prompt) the number of polls issued by `llm.stream` never exceeds
`max_polling_attempts`; the loop therefore terminates. -/
theorem claim_C7_poll_bounded (cfg : RunPodConfig)
    (respond : Nat → PollResponse) :
    runpodStreamPolls cfg respond ≤ cfg.max_polling_attempts ∧
    Function.Bijective
      (fun c : RunPodConfig => (c.poll_interval, c.max_polling_attempts)) := by
  constructor
  · exact pollCount_le respond cfg.max_polling_attempts 0
  · constructor
    · intro a b hab
      cases a; cases b
      simpa using hab
    · rintro ⟨p, m⟩
      exact ⟨⟨p, m⟩, rfl⟩

/-- C8: the unguarded indexing presupposes non-empty results at the
external-call boundary — when the loader returns at least one document,
`loader.load()[0]` succeeds with the first one; when the similarity
search ranks at least one chunk, the RAG extractor succeeds; and when
the retrieval result is empty, the RAG extractor fails with an
`IndexError` and in particular never returns any extraction. -/
theorem claim_C8_unguarded_indexing (extract : ExtractorInput → ExtractionData)
    (loaded : List Document) (d : Document) (ds : List Document)
    (sim sim2 : String → List Document) (q q2 : String)
    (d2 : Document) (ds2 : List Document)
    (hl : loaded = d :: ds) (hq : sim q = [])
    (hq2 : sim2 q2 = d2 :: ds2) :
    load_first loaded = Except.ok d ∧
    rag_extractor sim extract q =
      Except.error "IndexError: list index out of range" ∧
    (∀ ed : ExtractionData, rag_extractor sim extract q ≠ Except.ok ed) ∧
    rag_extractor sim2 extract q2 =
      Except.ok (extract { text := d2.page_content }) := by
  have herr : rag_extractor sim extract q =
      Except.error "IndexError: list index out of range" := by
    rw [rag_extractor, rag_extractor_input_head, hq]
    rfl
  refine ⟨?_, herr, ?_, ?_⟩
  · simp [load_first, pyGetItem, hl]
  · intro ed hed
    rw [herr] at hed
    exact Except.noConfusion hed
  · rw [rag_extractor, rag_extractor_input_head, hq2]
    rfl

/-- Witness for C8 at concrete loader output, an empty retrieval, and a
non-empty retrieval. -/
theorem claim_C8_witness :
    load_first [Document.mk "the doc" []] = Except.ok (Document.mk "the doc" []) ∧
    rag_extractor (fun _ => []) (fun _ => ExtractionData.mk []) "nothing matches" =
      Except.error "IndexError: list index out of range" ∧
    (∀ ed : ExtractionData,
      rag_extractor (fun _ => []) (fun _ => ExtractionData.mk [])
        "nothing matches" ≠ Except.ok ed) ∧
    rag_extractor (fun _ => [Document.mk "top" []]) (fun _ => ExtractionData.mk [])
        "cars" = Except.ok (ExtractionData.mk []) :=
  claim_C8_unguarded_indexing (fun _ => ExtractionData.mk [])
    [Document.mk "the doc" []] (Document.mk "the doc" []) []
    (fun _ => []) (fun _ => [Document.mk "top" []]) "nothing matches" "cars"
    (Document.mk "top" []) [] rfl rfl rfl

/-- C9: the newline-normalisation clean-up is idempotent and establishes
a no-blank-line invariant — for every string, replacing every run of two
or more consecutive newlines by a single newline yields a string with no
two consecutive newlines, and applying the normalisation again returns
the same string. -/
theorem claim_C9_normalize_idem (s : String) :
    noDoubleNewline (clean_page_content s).data = true ∧
    clean_page_content (clean_page_content s) = clean_page_content s := by
  constructor
  · exact noDoubleNewline_collapseNewlines s.data
  · exact congrArg String.mk (collapseNewlines_idem s.data)

/-- C10: the user query influences the extraction only through retrieval
— the query string is never inserted into the extractor's input, so any
two queries for which the similarity search returns the same top-ranked
chunk yield the identical input to the extractor chain and the identical
extraction result. -/
theorem claim_C10_query_only_via_retrieval (sim : String → List Document)
    (extract : ExtractorInput → ExtractionData) (q1 q2 : String)
    (h : (sim q1).head? = (sim q2).head?) :
    rag_extractor_input sim q1 = rag_extractor_input sim q2 ∧
    rag_extractor sim extract q1 = rag_extractor sim extract q2 := by
  have hi : rag_extractor_input sim q1 = rag_extractor_input sim q2 := by
    rw [rag_extractor_input_head, rag_extractor_input_head, h]
  exact ⟨hi, by simp only [rag_extractor, hi]⟩

/-- Witness for C10 at two distinct queries with the same top-ranked
retrieval result. -/
theorem claim_C10_witness :
    rag_extractor_input (fun _ => [Document.mk "shared top" []]) "alpha" =
      rag_extractor_input (fun _ => [Document.mk "shared top" []]) "beta" ∧
    rag_extractor (fun _ => [Document.mk "shared top" []])
        (fun _ => ExtractionData.mk []) "alpha" =
      rag_extractor (fun _ => [Document.mk "shared top" []])
        (fun _ => ExtractionData.mk []) "beta" :=
  claim_C10_query_only_via_retrieval (fun _ => [Document.mk "shared top" []])
    (fun _ => ExtractionData.mk []) "alpha" "beta" rfl

end Claims
